import Mathlib

/-!
Verification of the asus-press-directus request-gatekeeper middleware.

The embedded code lives in:
- extensions/asus-press-hooks/src/middleware/check-origin.ts
- extensions/asus-press-hooks/src/middleware/endpoint-validation.ts
- extensions/asus-press-hooks/src/middleware/property-validation.ts
- the status-rewrite middleware (createStatusRewriteMiddleware)

Each middleware is a pure function of the request that either calls
through to the next handler (modelled as Decision.allow) or
short-circuits with a status and JSON error body
(modelled as Decision.reject status error).

Header fields are modelled as Option String; a JavaScript header
expression such as `req.headers.origin` is undefined (none) when the
header is absent, and the middleware tests it for truthiness, under
which the empty string behaves like an absent header.  The helper
isTruthy models exactly that test.

The WHATWG URL constructor `new URL(s)` used by check-origin.ts is
platform code, not part of this repository; it is abstracted as a
parameter parseHost : String → Option String returning the parsed
hostname, with none modelling a thrown TypeError.  All theorems about
the origin check hold for every such parser; witnesses instantiate it
with the concrete demoParseHost defined below.
-/

/-- Decision of one middleware on one request: call next(), or send an
error response with the given HTTP status and error-message body. -/
inductive Decision where
  | allow
  | reject (status : Nat) (error : String)
deriving DecidableEq

/-- The three request headers read by the middleware chain
(`req.headers.origin`, `req.headers.referer`,
`req.headers["content-type"]`), each absent or a string value. -/
structure Headers where
  origin : Option String
  referer : Option String
  contentType : Option String
deriving DecidableEq

/-- The parts of an Express request the middleware chain reads:
`req.method`, `req.originalUrl`, the three headers, and the key set of
the parsed body (`Object.keys(req.body || {})`); bodyKeys is none when
`req.body` is undefined (body not yet parsed). -/
structure Request where
  method : String
  originalUrl : String
  headers : Headers
  bodyKeys : Option (List String)
deriving DecidableEq

/-- JavaScript truthiness of an optional header string: undefined and
the empty string are falsy, every other string is truthy. -/
def isTruthy : Option String → Bool
  | none => false
  | some s => !(s == "")

/-- ASCII lowering of a string, modelling String.prototype.toLowerCase
on the ASCII header values the middleware compares. -/
def toLowerAscii (s : String) : String :=
  ⟨s.toList.map Char.toLower⟩

/-- Occurrence of a needle at some position of a haystack, scanning
left to right. -/
def listContainsSub (needle : List Char) : List Char → Bool
  | [] => needle == []
  | c :: rest => needle.isPrefixOf (c :: rest) || listContainsSub needle rest

/-- Substring test `hay.includes(needle)` of JavaScript strings. -/
def jsIncludes (hay needle : String) : Bool :=
  listContainsSub needle.toList hay.toList

/-- FORM_CONTENT_TYPES from check-origin.ts: content types that a form
submission can carry. -/
def FORM_CONTENT_TYPES : List String :=
  ["application/x-www-form-urlencoded", "multipart/form-data", "text/plain"]

/-- SAFE_METHODS from check-origin.ts: methods exempt from all origin
and CSRF checks. -/
def SAFE_METHODS : List String :=
  ["GET", "HEAD", "OPTIONS"]

/-- hasFormLikeHeader from check-origin.ts: a truthy content-type whose
lower-cased value contains one of FORM_CONTENT_TYPES. -/
def hasFormLikeHeader (contentType : Option String) : Bool :=
  if isTruthy contentType then
    FORM_CONTENT_TYPES.any fun formContentType =>
      jsIncludes (toLowerAscii (contentType.getD "")) formContentType
  else
    false

/-- Source URL selection `origin || referer` of check-origin.ts:
the Origin header when truthy, else the Referer header. -/
def sourceUrlOf (headers : Headers) : Option String :=
  if isTruthy headers.origin then headers.origin else headers.referer

/-- One step of the `allowedOrigins.some(...)` callback of
check-origin.ts: an entry matches either by parsing as a URL and
comparing hostnames, or, when parsing fails, by direct string equality
against the source hostname. -/
def originEntryMatches (parseHost : String → Option String)
    (sourceHost allowedOrigin : String) : Bool :=
  match parseHost allowedOrigin with
  | some allowedHost => sourceHost == allowedHost
  | none => sourceHost == allowedOrigin

/-- createCheckOriginMiddleware from check-origin.ts, flattened to a
function from the factory arguments and the request to a Decision.
parseHost abstracts the WHATWG `new URL(s).hostname` computation, with
none for a parse failure. -/
def createCheckOriginMiddleware (parseHost : String → Option String)
    (allowedOrigins : List String) (requestUrl : String)
    (req : Request) : Decision :=
  if SAFE_METHODS.contains req.method then
    Decision.allow
  else if 0 < allowedOrigins.length then
    if !isTruthy req.headers.origin && !isTruthy req.headers.referer then
      Decision.allow
    else if !isTruthy (sourceUrlOf req.headers) then
      Decision.allow
    else
      match parseHost ((sourceUrlOf req.headers).getD "") with
      | none => Decision.reject 403 "Access denied: unauthorized origin."
      | some sourceHost =>
        if allowedOrigins.any (originEntryMatches parseHost sourceHost) then
          Decision.allow
        else
          Decision.reject 403 "Access denied: unauthorized origin."
  else
    if !isTruthy req.headers.origin then
      Decision.allow
    else
      if isTruthy req.headers.contentType then
        if hasFormLikeHeader req.headers.contentType
            && !(req.headers.origin.getD "" == requestUrl) then
          Decision.reject 403
            ("Cross-site " ++ req.method ++ " form submissions are forbidden")
        else
          Decision.allow
      else
        if !(req.headers.origin.getD "" == requestUrl) then
          Decision.reject 403
            ("Cross-site " ++ req.method ++ " form submissions are forbidden")
        else
          Decision.allow

/-- Exemption test of the negative lookahead (?!system(?:\/|$)) of
endpoint-validation.ts, applied to the characters after the
"/graphql/" prefix: the remainder is exactly "system" or starts with
"system/". -/
def systemExempt (rest : List Char) : Bool :=
  rest == "system".toList || "system/".toList.isPrefixOf rest

/-- Test of the regular expression ^\/graphql\/(?!system(?:\/|$)).* of
endpoint-validation.ts on a URL: the URL starts with "/graphql/" and
the remainder after that prefix is not exempted by the lookahead. -/
def graphqlBlockMatches (url : String) : Bool :=
  "/graphql/".toList.isPrefixOf url.toList
    && !(systemExempt (url.toList.drop 9))

/-- createGraphQLEndpointValidation from endpoint-validation.ts:
reject 400 when the blocking regular expression matches
req.originalUrl, otherwise call through. -/
def createGraphQLEndpointValidation (req : Request) : Decision :=
  if graphqlBlockMatches req.originalUrl then
    Decision.reject 400 "Invalid endpoint."
  else
    Decision.allow

/-- createGraphQLPropertyValidation from property-validation.ts: every
key of the parsed body must lie in the fixed allowed list, else
reject 400. -/
def createGraphQLPropertyValidation (req : Request) : Decision :=
  let allowedProps := ["query", "variables", "operationName"]
  let props := req.bodyKeys.getD []
  let isAllowed := props.all fun prop => allowedProps.contains prop
  if !isAllowed then
    Decision.reject 400 "Request contains invalid properties."
  else
    Decision.allow

/-- createAuthLoginPropertyValidation from property-validation.ts:
every key of the parsed body must lie in the fixed allowed list, else
reject 400. -/
def createAuthLoginPropertyValidation (req : Request) : Decision :=
  let allowedProps := ["email", "password", "mode"]
  let props := req.bodyKeys.getD []
  let isAllowed := props.all fun prop => allowedProps.contains prop
  if !isAllowed then
    Decision.reject 400 "Request contains invalid properties."
  else
    Decision.allow

/-- Extensions object of one entry of the 404 rewrite envelope. -/
structure ErrorExtensions where
  code : String
  path : String
deriving DecidableEq

/-- One entry of the errors array of the 404 rewrite envelope. -/
structure ErrorEntry where
  message : String
  extensions : ErrorExtensions
deriving DecidableEq

/-- The JSON envelope `\x7b errors: [...] \x7d` sent by the status
rewriter. -/
structure ErrorEnvelope where
  errors : List ErrorEntry
deriving DecidableEq

/-- Body sent by the wrapped res.send: either the caller's body passed
through, or the rewritten not-found envelope. -/
inductive SentBody (α : Type) where
  | passthrough (body : α)
  | rewritten (envelope : ErrorEnvelope)
deriving DecidableEq

/-- createStatusRewriteMiddleware: behaviour of the overridden
res.send at the moment the body is sent, as a function of the response
status code at that moment, the request's original URL, and the body
being sent; returns the final status code and the body actually sent.
The message "Not found." is the message of the error built by
createError("ROUTE_NOT_FOUND", "Not found.", 404). -/
def createStatusRewriteMiddleware {α : Type} (statusCode : Nat)
    (originalUrl : String) (body : α) : Nat × SentBody α :=
  if statusCode = 403 then
    (404, SentBody.rewritten
      ⟨[⟨"Not found.", ⟨"ROUTE_NOT_FOUND", originalUrl⟩⟩]⟩)
  else
    (statusCode, SentBody.passthrough body)

/-- Small concrete hostname extractor used only to instantiate the
abstract parseHost parameter in witnesses: accepts http and https
URLs, returning the host part up to the first slash, colon or end,
and fails on anything else. -/
def demoParseHost (s : String) : Option String :=
  if "https://".toList.isPrefixOf s.toList then
    some ⟨(s.toList.drop 8).takeWhile fun c => !(c == '/') && !(c == ':')⟩
  else if "http://".toList.isPrefixOf s.toList then
    some ⟨(s.toList.drop 7).takeWhile fun c => !(c == '/') && !(c == ':')⟩
  else
    none

/-- Request constructor used by witnesses. -/
def mkReq (method url : String) (origin referer contentType : Option String)
    (bodyKeys : Option (List String)) : Request :=
  ⟨method, url, ⟨origin, referer, contentType⟩, bodyKeys⟩

example : demoParseHost "https://asus-press-cms.tenten.dev" = some "asus-press-cms.tenten.dev" := by decide
example : demoParseHost "not a url" = none := by decide
example : hasFormLikeHeader (some "TEXT/PLAIN; charset=utf-8") = true := by decide
example : hasFormLikeHeader (some "application/json") = false := by decide
example : graphqlBlockMatches "/graphql" = false := by decide
example : graphqlBlockMatches "/graphql/" = true := by decide
example : graphqlBlockMatches "/graphql/system" = false := by decide
example : graphqlBlockMatches "/graphql/system/foo" = false := by decide
example : graphqlBlockMatches "/graphql/systemx" = true := by decide
example : graphqlBlockMatches "/graphql/evil" = true := by decide
example :
    createCheckOriginMiddleware demoParseHost ["https://asus-press-cms.tenten.dev"]
      "http://localhost:8055"
      (mkReq "POST" "/auth/login" (some "https://malicious-site.com") none
        (some "application/json") none)
      = Decision.reject 403 "Access denied: unauthorized origin." := by decide
example :
    createCheckOriginMiddleware demoParseHost ["https://asus-press-cms.tenten.dev"]
      "http://localhost:8055"
      (mkReq "POST" "/auth/login" (some "https://asus-press-cms.tenten.dev") none
        (some "application/json") none)
      = Decision.allow := by decide
example :
    createCheckOriginMiddleware demoParseHost [] "http://localhost:8055"
      (mkReq "POST" "/auth/login" (some "https://malicious-site.com") none
        (some "application/x-www-form-urlencoded") none)
      = Decision.reject 403 "Cross-site POST form submissions are forbidden" := by decide
example :
    createCheckOriginMiddleware demoParseHost [] "http://localhost:8055"
      (mkReq "POST" "/auth/login" (some "https://malicious-site.com") none
        (some "application/json") none)
      = Decision.allow := by decide
example :
    createCheckOriginMiddleware demoParseHost [] "http://localhost:8055"
      (mkReq "POST" "/auth/login" (some "https://malicious-site.com") none none none)
      = Decision.reject 403 "Cross-site POST form submissions are forbidden" := by decide

/-! Helper lemmas shared by the claim theorems. -/

theorem list_isPrefixOf_append_self (p l : List Char) : p.isPrefixOf (p ++ l) = true := by
  induction p with
  | nil => simp [List.isPrefixOf]
  | cons a as ih => simp [List.isPrefixOf, ih]

theorem hasFormLikeHeader_isTruthy (c : Option String)
    (h : hasFormLikeHeader c = true) : isTruthy c = true := by
  cases hc : isTruthy c with
  | true => rfl
  | false => rw [hasFormLikeHeader, hc] at h; simp at h

/-- C3: for every request whose method is GET, HEAD or OPTIONS, the
origin/CSRF check allows, for every parser, allowed-origin set,
canonical base URL, headers, path and body. -/
theorem claim_C3_safe_methods_always_allow (parseHost : String → Option String)
    (allowedOrigins : List String) (requestUrl : String) (req : Request)
    (h : req.method = "GET" ∨ req.method = "HEAD" ∨ req.method = "OPTIONS") :
    createCheckOriginMiddleware parseHost allowedOrigins requestUrl req
      = Decision.allow := by
  have hc : req.method ∈ SAFE_METHODS := by
    rcases h with h | h | h <;> simp [SAFE_METHODS, h]
  simp [createCheckOriginMiddleware, hc]

theorem claim_C3_safe_methods_always_allow_witness :
    createCheckOriginMiddleware demoParseHost ["https://asus-press-cms.tenten.dev"]
      "http://localhost:8055"
      (mkReq "GET" "/items/press" (some "https://malicious-site.com")
        (some "https://malicious-site.com/page")
        (some "application/x-www-form-urlencoded") none)
      = Decision.allow :=
  claim_C3_safe_methods_always_allow demoParseHost
    ["https://asus-press-cms.tenten.dev"] "http://localhost:8055"
    (mkReq "GET" "/items/press" (some "https://malicious-site.com")
      (some "https://malicious-site.com/page")
      (some "application/x-www-form-urlencoded") none)
    (Or.inl rfl)

/-- C5: in allowlist mode, on a non-safe request carrying both a truthy
Origin and a truthy Referer header, the decision is a function of the
Origin header alone: the Referer value can be replaced by any other
value without changing the decision. -/
theorem claim_C5_origin_takes_precedence (parseHost : String → Option String)
    (allowedOrigins : List String) (requestUrl m u : String)
    (b : Option (List String)) (o r₁ r₂ : String) (ct : Option String)
    (_hm : m ∉ SAFE_METHODS)
    (_hne : allowedOrigins ≠ [])
    (ho : o ≠ "") (_hr₁ : r₁ ≠ "") (_hr₂ : r₂ ≠ "") :
    createCheckOriginMiddleware parseHost allowedOrigins requestUrl
      ⟨m, u, ⟨some o, some r₁, ct⟩, b⟩
      = createCheckOriginMiddleware parseHost allowedOrigins requestUrl
          ⟨m, u, ⟨some o, some r₂, ct⟩, b⟩ := by
  have hO : isTruthy (some o) = true := by simp [isTruthy, ho]
  simp [createCheckOriginMiddleware, sourceUrlOf, hO]

theorem claim_C5_origin_takes_precedence_witness :
    createCheckOriginMiddleware demoParseHost ["https://asus-press-cms.tenten.dev"]
      "http://localhost:8055"
      ⟨"POST", "/auth/login",
        ⟨some "https://asus-press-cms.tenten.dev", some "https://malicious-site.com/page",
          some "application/json"⟩, none⟩
      = createCheckOriginMiddleware demoParseHost ["https://asus-press-cms.tenten.dev"]
          "http://localhost:8055"
          ⟨"POST", "/auth/login",
            ⟨some "https://asus-press-cms.tenten.dev", some "https://asus-press-cms.tenten.dev/page",
              some "application/json"⟩, none⟩ :=
  claim_C5_origin_takes_precedence demoParseHost
    ["https://asus-press-cms.tenten.dev"] "http://localhost:8055" "POST" "/auth/login"
    none "https://asus-press-cms.tenten.dev" "https://malicious-site.com/page"
    "https://asus-press-cms.tenten.dev/page" (some "application/json")
    (by decide) (by decide) (by decide) (by decide) (by decide)

/-- C8: at send time, a 403 response is rewritten to status 404 with
exactly the not-found envelope carrying the request's original URL,
and any other status passes its body through unmodified. -/
theorem claim_C8_status_rewrite (α : Type) (u : String) (b : α) (s : Nat)
    (hs : s ≠ 403) :
    createStatusRewriteMiddleware 403 u b
      = (404, SentBody.rewritten
          ⟨[⟨"Not found.", ⟨"ROUTE_NOT_FOUND", u⟩⟩]⟩)
    ∧ createStatusRewriteMiddleware s u b = (s, SentBody.passthrough b) := by
  refine ⟨rfl, ?_⟩
  simp [createStatusRewriteMiddleware, hs]

theorem claim_C8_status_rewrite_witness :
    createStatusRewriteMiddleware 403 "/items/press" "denied"
      = (404, SentBody.rewritten
          ⟨[⟨"Not found.", ⟨"ROUTE_NOT_FOUND", "/items/press"⟩⟩]⟩)
    ∧ createStatusRewriteMiddleware 200 "/items/press" "denied"
      = (200, SentBody.passthrough "denied") :=
  claim_C8_status_rewrite String "/items/press" "denied" 200 (by decide)

/-- C9: the path "/graphql/" with an empty sub-path is rejected with
status 400 by the GraphQL endpoint check, because the empty remainder
does not satisfy the system exemption of the lookahead. -/
theorem claim_C9_trailing_slash_rejected (req : Request)
    (h : req.originalUrl = "/graphql/") :
    createGraphQLEndpointValidation req = Decision.reject 400 "Invalid endpoint." := by
  unfold createGraphQLEndpointValidation
  rw [h]
  decide

theorem claim_C9_trailing_slash_rejected_witness :
    createGraphQLEndpointValidation (mkReq "POST" "/graphql/" none none none none)
      = Decision.reject 400 "Invalid endpoint." :=
  claim_C9_trailing_slash_rejected (mkReq "POST" "/graphql/" none none none none) rfl

/-- C10: noninterference of the origin/CSRF check: two requests with
the same method and the same three headers receive the same decision,
whatever their paths and bodies, under any parser, allowed-origin set
and canonical base URL. -/
theorem claim_C10_decision_ignores_path_and_body
    (parseHost : String → Option String) (allowedOrigins : List String)
    (requestUrl m : String) (hdrs : Headers) (u₁ u₂ : String)
    (b₁ b₂ : Option (List String)) :
    createCheckOriginMiddleware parseHost allowedOrigins requestUrl ⟨m, u₁, hdrs, b₁⟩
      = createCheckOriginMiddleware parseHost allowedOrigins requestUrl ⟨m, u₂, hdrs, b₂⟩ :=
  rfl

/-- C6: the GraphQL sub-path rule on the four path shapes the spec
names: every "/graphql/" sub-path whose remainder is neither exactly
"system" nor starts with the segment "system/" is rejected with
status 400 and the invalid-endpoint body; "/graphql/system",
"/graphql/system/..." and the bare "/graphql" all pass through. -/
theorem claim_C6_graphql_subpath_rule (rest tail : String)
    (r₁ r₂ r₃ r₄ : Request)
    (h₁ : r₁.originalUrl = "/graphql/" ++ rest)
    (h₂ : r₂.originalUrl = "/graphql")
    (h₃ : r₃.originalUrl = "/graphql/system")
    (h₄ : r₄.originalUrl = "/graphql/system/" ++ tail)
    (hne : rest ≠ "system")
    (hpre : "system/".toList.isPrefixOf rest.toList = false) :
    createGraphQLEndpointValidation r₁ = Decision.reject 400 "Invalid endpoint."
    ∧ createGraphQLEndpointValidation r₂ = Decision.allow
    ∧ createGraphQLEndpointValidation r₃ = Decision.allow
    ∧ createGraphQLEndpointValidation r₄ = Decision.allow := by
  refine ⟨?_, ?_, ?_, ?_⟩
  · unfold createGraphQLEndpointValidation
    rw [h₁]
    have hl : ("/graphql/" ++ rest).toList = "/graphql/".toList ++ rest.toList := rfl
    have hdrop : ("/graphql/".toList ++ rest.toList).drop 9 = rest.toList :=
      List.drop_left' rfl
    have hbeq : (rest.toList == "system".toList) = false := by
      rw [beq_eq_false_iff_ne]
      intro hEq
      exact hne (String.ext hEq)
    have hmatch : graphqlBlockMatches ("/graphql/" ++ rest) = true := by
      unfold graphqlBlockMatches
      rw [hl, list_isPrefixOf_append_self, hdrop]
      unfold systemExempt
      rw [hbeq, hpre]
      rfl
    simp [hmatch]
  · unfold createGraphQLEndpointValidation
    rw [h₂]
    decide
  · unfold createGraphQLEndpointValidation
    rw [h₃]
    decide
  · unfold createGraphQLEndpointValidation
    rw [h₄]
    have hl : ("/graphql/system/" ++ tail).toList
        = "/graphql/".toList ++ ("system/".toList ++ tail.toList) := rfl
    have hdrop : ("/graphql/".toList ++ ("system/".toList ++ tail.toList)).drop 9
        = "system/".toList ++ tail.toList :=
      List.drop_left' rfl
    have hmatch : graphqlBlockMatches ("/graphql/system/" ++ tail) = false := by
      unfold graphqlBlockMatches
      rw [hl, list_isPrefixOf_append_self, hdrop]
      unfold systemExempt
      rw [list_isPrefixOf_append_self]
      simp
    simp [hmatch]

theorem claim_C6_graphql_subpath_rule_witness :
    createGraphQLEndpointValidation (mkReq "POST" "/graphql/evil" none none none none)
      = Decision.reject 400 "Invalid endpoint."
    ∧ createGraphQLEndpointValidation (mkReq "POST" "/graphql" none none none none)
      = Decision.allow
    ∧ createGraphQLEndpointValidation (mkReq "POST" "/graphql/system" none none none none)
      = Decision.allow
    ∧ createGraphQLEndpointValidation (mkReq "POST" "/graphql/system/foo" none none none none)
      = Decision.allow :=
  claim_C6_graphql_subpath_rule "evil" "foo"
    (mkReq "POST" "/graphql/evil" none none none none)
    (mkReq "POST" "/graphql" none none none none)
    (mkReq "POST" "/graphql/system" none none none none)
    (mkReq "POST" "/graphql/system/foo" none none none none)
    rfl rfl rfl rfl (by decide) (by decide)

/-- Rejection condition of one body-property allowlist check, shared by
the GraphQL and the auth-login instance. -/
theorem propertyValidation_reject_iff (allowed keys : List String) :
    ((if !(keys.all fun prop => allowed.contains prop) then
        Decision.reject 400 "Request contains invalid properties."
      else Decision.allow)
      = Decision.reject 400 "Request contains invalid properties."
    ↔ ∃ k ∈ keys, k ∉ allowed) := by
  cases h : keys.all fun prop => allowed.contains prop with
  | true =>
    rw [List.all_eq_true] at h
    simp only [Bool.not_true, Bool.false_eq_true, if_false]
    constructor
    · intro hEq
      simp at hEq
    · rintro ⟨k, hk, hnk⟩
      have := h k hk
      simp only [List.contains, List.elem_iff] at this
      exact absurd this hnk
  | false =>
    rw [List.all_eq_false] at h
    obtain ⟨k, hk, hnk⟩ := h
    simp only [Bool.not_false, if_true]
    constructor
    · intro _
      refine ⟨k, hk, fun hmem => hnk ?_⟩
      simp only [List.contains, List.elem_iff]
      exact hmem
    · intro _
      trivial

/-- C7: each body-property check rejects with 400 and the
invalid-properties body exactly when some key of the parsed body lies
outside the fixed allowed set of its route, and an absent or empty
body is allowed. -/
theorem claim_C7_property_allowlists (r : Request) :
    (createGraphQLPropertyValidation r
        = Decision.reject 400 "Request contains invalid properties."
      ↔ ∃ k ∈ r.bodyKeys.getD [], k ∉ (["query", "variables", "operationName"] : List String))
    ∧ (createAuthLoginPropertyValidation r
        = Decision.reject 400 "Request contains invalid properties."
      ↔ ∃ k ∈ r.bodyKeys.getD [], k ∉ (["email", "password", "mode"] : List String))
    ∧ (r.bodyKeys = none ∨ r.bodyKeys = some [] →
        createGraphQLPropertyValidation r = Decision.allow
        ∧ createAuthLoginPropertyValidation r = Decision.allow) := by
  refine ⟨?_, ?_, ?_⟩
  · exact propertyValidation_reject_iff ["query", "variables", "operationName"]
      (r.bodyKeys.getD [])
  · exact propertyValidation_reject_iff ["email", "password", "mode"]
      (r.bodyKeys.getD [])
  · rintro (hb | hb) <;>
      simp [createGraphQLPropertyValidation, createAuthLoginPropertyValidation, hb]

theorem claim_C7_property_allowlists_witness :
    (createGraphQLPropertyValidation
        (mkReq "POST" "/graphql" none none none (some ["query", "malicious"]))
        = Decision.reject 400 "Request contains invalid properties."
      ↔ ∃ k ∈ (some ["query", "malicious"] : Option (List String)).getD [],
          k ∉ (["query", "variables", "operationName"] : List String))
    ∧ (createAuthLoginPropertyValidation
        (mkReq "POST" "/graphql" none none none (some ["query", "malicious"]))
        = Decision.reject 400 "Request contains invalid properties."
      ↔ ∃ k ∈ (some ["query", "malicious"] : Option (List String)).getD [],
          k ∉ (["email", "password", "mode"] : List String))
    ∧ ((some ["query", "malicious"] : Option (List String)) = none
        ∨ (some ["query", "malicious"] : Option (List String)) = some [] →
        createGraphQLPropertyValidation
          (mkReq "POST" "/graphql" none none none (some ["query", "malicious"]))
          = Decision.allow
        ∧ createAuthLoginPropertyValidation
          (mkReq "POST" "/graphql" none none none (some ["query", "malicious"]))
          = Decision.allow) :=
  claim_C7_property_allowlists
    (mkReq "POST" "/graphql" none none none (some ["query", "malicious"]))

/-- C1: allowlist mode of the origin check, for a non-safe method and a
non-empty allowed-origin set: with neither a truthy Origin nor a
truthy Referer the check allows; when the source URL (Origin
preferred, else Referer) parses to a hostname, the check allows
exactly when some entry of the allowed set matches under
originEntryMatches, and otherwise rejects with 403 and the
unauthorized-origin body. -/
theorem claim_C1_allowlist_mode (parseHost : String → Option String)
    (allowedOrigins : List String) (requestUrl : String) (req : Request)
    (hm : req.method ∉ SAFE_METHODS) (hne : allowedOrigins ≠ []) :
    (isTruthy req.headers.origin = false → isTruthy req.headers.referer = false →
      createCheckOriginMiddleware parseHost allowedOrigins requestUrl req
        = Decision.allow)
    ∧ (∀ s host, sourceUrlOf req.headers = some s → s ≠ "" →
        parseHost s = some host →
        (allowedOrigins.any (originEntryMatches parseHost host) = true →
          createCheckOriginMiddleware parseHost allowedOrigins requestUrl req
            = Decision.allow)
        ∧ (allowedOrigins.any (originEntryMatches parseHost host) = false →
          createCheckOriginMiddleware parseHost allowedOrigins requestUrl req
            = Decision.reject 403 "Access denied: unauthorized origin.")) := by
  have hlen : 0 < allowedOrigins.length := List.length_pos.mpr hne
  refine ⟨?_, ?_⟩
  · intro ho hr
    simp [createCheckOriginMiddleware, hm, hlen, ho, hr]
  · intro s host hsrc hs hp
    have htr : isTruthy (some s) = true := by simp [isTruthy, hs]
    have hcond : ¬(isTruthy req.headers.origin = false
        ∧ isTruthy req.headers.referer = false) := by
      rintro ⟨hO, hR⟩
      have href : req.headers.referer = some s := by
        have hsw : sourceUrlOf req.headers = req.headers.referer := by
          simp [sourceUrlOf, hO]
        rw [← hsw, hsrc]
      rw [href] at hR
      simp [isTruthy, hs] at hR
    constructor
    · intro hany
      have hex : ∃ x ∈ allowedOrigins, originEntryMatches parseHost host x = true := by
        simpa [List.any_eq_true] using hany
      simp [createCheckOriginMiddleware, hm, hlen, hcond, htr, hsrc, hp, hex]
    · intro hany
      have hex : ¬∃ x ∈ allowedOrigins, originEntryMatches parseHost host x = true := by
        rw [List.any_eq_false] at hany
        rintro ⟨x, hx, hpx⟩
        exact absurd hpx (by simpa using hany x hx)
      simp [createCheckOriginMiddleware, hm, hlen, hcond, htr, hsrc, hp, hex]

theorem claim_C1_allowlist_mode_witness :
    createCheckOriginMiddleware demoParseHost
      ["https://asus-press-cms.tenten.dev"] "http://localhost:8055"
      (mkReq "POST" "/auth/login" (some "https://asus-press-cms.tenten.dev") none
        (some "application/json") none)
      = Decision.allow :=
  ((claim_C1_allowlist_mode demoParseHost
      ["https://asus-press-cms.tenten.dev"] "http://localhost:8055"
      (mkReq "POST" "/auth/login" (some "https://asus-press-cms.tenten.dev") none
        (some "application/json") none)
      (by decide) (by decide)).2
    "https://asus-press-cms.tenten.dev" "asus-press-cms.tenten.dev"
    (by decide) (by decide) (by decide)).1 (by decide)

/-- C4: in allowlist mode, on a non-safe request whose truthy source
URL fails to parse, the check rejects hard with 403 and the
unauthorized-origin body. -/
theorem claim_C4_unparseable_source_rejected (parseHost : String → Option String)
    (allowedOrigins : List String) (requestUrl : String) (req : Request)
    (hm : req.method ∉ SAFE_METHODS) (hne : allowedOrigins ≠ [])
    (s : String) (hsrc : sourceUrlOf req.headers = some s) (hs : s ≠ "")
    (hp : parseHost s = none) :
    createCheckOriginMiddleware parseHost allowedOrigins requestUrl req
      = Decision.reject 403 "Access denied: unauthorized origin." := by
  have hlen : 0 < allowedOrigins.length := List.length_pos.mpr hne
  have htr : isTruthy (some s) = true := by simp [isTruthy, hs]
  have hcond : ¬(isTruthy req.headers.origin = false
      ∧ isTruthy req.headers.referer = false) := by
    rintro ⟨hO, hR⟩
    have href : req.headers.referer = some s := by
      have hsw : sourceUrlOf req.headers = req.headers.referer := by
        simp [sourceUrlOf, hO]
      rw [← hsw, hsrc]
    rw [href] at hR
    simp [isTruthy, hs] at hR
  simp [createCheckOriginMiddleware, hm, hlen, hcond, htr, hsrc, hp]

theorem claim_C4_unparseable_source_rejected_witness :
    createCheckOriginMiddleware demoParseHost
      ["https://asus-press-cms.tenten.dev"] "http://localhost:8055"
      (mkReq "POST" "/auth/login" (some "not a url") none
        (some "application/json") none)
      = Decision.reject 403 "Access denied: unauthorized origin." :=
  claim_C4_unparseable_source_rejected demoParseHost
    ["https://asus-press-cms.tenten.dev"] "http://localhost:8055"
    (mkReq "POST" "/auth/login" (some "not a url") none
      (some "application/json") none)
    (by decide) (by decide) "not a url" (by decide) (by decide) (by decide)

/-- C2: CSRF mode of the origin check (empty allowed-origin set) on a
non-safe request: no truthy Origin allows; an Origin equal to the
canonical base URL allows regardless of content type; a cross-origin
request whose content type is form-like, or which carries no
content-type header, is rejected with 403; a cross-origin request
with a non-form content type is allowed. -/
theorem claim_C2_csrf_mode (parseHost : String → Option String)
    (requestUrl : String) (req : Request)
    (hm : req.method ∉ SAFE_METHODS) :
    (isTruthy req.headers.origin = false →
      createCheckOriginMiddleware parseHost [] requestUrl req = Decision.allow)
    ∧ (∀ o, req.headers.origin = some o → o = requestUrl →
        createCheckOriginMiddleware parseHost [] requestUrl req = Decision.allow)
    ∧ (∀ o, req.headers.origin = some o → o ≠ "" → o ≠ requestUrl →
        (hasFormLikeHeader req.headers.contentType = true
          ∨ req.headers.contentType = none) →
        createCheckOriginMiddleware parseHost [] requestUrl req
          = Decision.reject 403
              ("Cross-site " ++ req.method ++ " form submissions are forbidden"))
    ∧ (∀ o ct, req.headers.origin = some o → o ≠ "" → o ≠ requestUrl →
        req.headers.contentType = some ct → ct ≠ "" →
        hasFormLikeHeader req.headers.contentType = false →
        createCheckOriginMiddleware parseHost [] requestUrl req = Decision.allow) := by
  refine ⟨?_, ?_, ?_, ?_⟩
  · intro ho
    simp [createCheckOriginMiddleware, hm, ho]
  · intro o ho heq
    subst heq
    by_cases hoe : o = ""
    · simp [createCheckOriginMiddleware, hm, ho, hoe, isTruthy]
    · simp [createCheckOriginMiddleware, hm, ho, hoe, isTruthy]
  · intro o ho hoe hneq hcase
    rcases hcase with hform | hct
    · have htc : isTruthy req.headers.contentType = true :=
        hasFormLikeHeader_isTruthy _ hform
      simp [createCheckOriginMiddleware, hm, ho, hoe, isTruthy, htc, hform, hneq]
    · simp [createCheckOriginMiddleware, hm, ho, hoe, isTruthy, hct, hneq]
  · intro o ct ho hoe hneq hct hcte hform
    have hform' : hasFormLikeHeader (some ct) = false := by
      rw [← hct]; exact hform
    simp [createCheckOriginMiddleware, hm, ho, hoe, hct, isTruthy, hcte, hform']

theorem claim_C2_csrf_mode_witness :
    createCheckOriginMiddleware demoParseHost [] "http://localhost:8055"
      (mkReq "POST" "/auth/login" (some "https://malicious-site.com") none
        (some "application/x-www-form-urlencoded") none)
      = Decision.reject 403 "Cross-site POST form submissions are forbidden" :=
  ((claim_C2_csrf_mode demoParseHost "http://localhost:8055"
      (mkReq "POST" "/auth/login" (some "https://malicious-site.com") none
        (some "application/x-www-form-urlencoded") none)
      (by decide)).2.2.1
    "https://malicious-site.com" (by decide) (by decide) (by decide)
    (Or.inl (by decide)))
